import Mathlib

/-!
Verification development for the approval-gated tool-calling sales agent
(`virtual_sales_agent/graph.py`, `virtual_sales_agent/tools.py`, `main.py`).

The Python source is shallowly embedded:
* messages, tool-call requests and the assistant re-prompt loop of
  `graph.py` become inductive types and a fuelled loop;
* the compiled LangGraph (`builder.compile(checkpointer=memory,
  interrupt_before=["sensitive_tools"])`) becomes a small-step execution
  engine `runLoop` over the node/edge wiring declared in `graph.py`;
* the SQLite-backed tools of `tools.py` become pure functions over an
  explicit database state, with the transaction of `create_order`
  (BEGIN TRANSACTION / COMMIT / ROLLBACK) rendered as working-state
  threading that restores the original state on rollback;
* Python `float(...)` applied to a `Decimal` is modelled by `pyFloat`,
  round-to-nearest-even conversion of an exact rational into the
  IEEE-754 binary64 grid (finite range).
-/

/-- A tool-call request emitted by the planner inside an assistant message
(`tool_calls` entries in LangChain AI messages): name, call id, arguments. -/
structure ToolCall where
  name : String
  id : String
  args : List (String × String)
deriving DecidableEq, BEq

/-- Content of an assistant message: either a plain string or a list of
content blocks, each block's `"text"` entry being possibly absent
(`result.content` in `graph.py`, `Assistant.__call__`). -/
inductive MsgContent
  | text (s : String)
  | blocks (bs : List (Option String))
deriving DecidableEq, BEq

/-- One conversation message: user text, planner (AI) message with tool
calls, or a tool-result message answering a call id. -/
inductive Message
  | user (content : String)
  | ai (content : MsgContent) (toolCalls : List ToolCall)
  | tool (callId : String) (content : String)
deriving DecidableEq, BEq

/-- The planner's output for one invocation: content plus tool calls. -/
structure AIMsg where
  content : MsgContent
  toolCalls : List ToolCall
deriving DecidableEq, BEq

/-- Names of the read-only tools registered in `safe_tools`
(`graph.py` lines 181-205); a tool's name is its Python function name. -/
def safe_tool_names : List String :=
  ["get_available_categories", "search_products", "search_products_recommendations",
   "check_order_status", "get_api_welcome", "check_api_health", "get_db_tables",
   "get_current_user", "list_users", "list_expenses", "list_expense_categories",
   "list_investments", "list_goals", "list_incomes", "get_expenses_by_category",
   "get_expenses_by_month", "get_cashflow", "get_financial_summary",
   "get_financial_trends", "list_projects", "list_boards", "list_columns",
   "list_tasks"]

/-- Names of the confirmation-gated tools registered in `sensitive_tools`
(`graph.py` lines 208-254); `sensitive_tool_names = {tool.name for tool in
sensitive_tools}` (line 256). -/
def sensitive_tool_names : List String :=
  ["create_order", "register_user", "login_user", "logout_user", "update_user",
   "delete_user", "create_expense", "get_expense", "update_expense",
   "delete_expense", "create_expense_category", "get_expense_category",
   "update_expense_category", "delete_expense_category", "create_investment",
   "get_investment", "update_investment", "delete_investment", "create_goal",
   "get_goal", "update_goal", "delete_goal", "create_income", "get_income",
   "update_income", "delete_income", "create_project", "get_project",
   "update_project", "delete_project", "create_board", "get_board",
   "update_board", "delete_board", "create_column", "get_column",
   "update_column", "delete_column", "create_task", "get_task", "update_task",
   "delete_task", "send_chat_message", "get_session_state", "reset_session"]

/-- The emptiness test of `Assistant.__call__` (`graph.py` lines 113-117):
`not result.tool_calls and (not result.content or isinstance(result.content,
list) and not result.content[0].get("text"))`.  A missing `"text"` key
(`None`) and an empty string are both falsy. -/
def isEmptyResponse (r : AIMsg) : Bool :=
  r.toolCalls.isEmpty &&
    ((match r.content with
      | .text s => s == ""
      | .blocks bs => bs.isEmpty) ||
     (match r.content with
      | .blocks (b :: _) => (match b with | none => true | some t => t == "")
      | _ => false))

/-- The re-prompt message appended by `Assistant.__call__` (`graph.py` line
118): `("user", "Respond with a real output.")`. -/
def repromptMsg : Message := .user "Respond with a real output."

/-- The `while True` loop of `Assistant.__call__` (`graph.py` lines
106-121): invoke the runnable on the current state; while the result is an
empty response, append the re-prompt user message and invoke again.  The
Python loop has no bound, so the embedding is fuelled: `none` means the
loop is still running after `fuel` planner invocations.  On success it
returns the surfaced message together with the number of planner
invocations made. -/
def assistantLoop (runnable : List Message → AIMsg) :
    Nat → List Message → Option (AIMsg × Nat)
  | 0, _ => none
  | fuel + 1, msgs =>
    let r := runnable msgs
    if isEmptyResponse r then
      match assistantLoop runnable fuel (msgs ++ [repromptMsg]) with
      | none => none
      | some (a, n) => some (a, n + 1)
    else
      some (r, 1)

/-- Routing targets of the conditional edge out of the `assistant` node
(`graph.py` lines 285-287): `["safe_tools", "sensitive_tools", END]`. -/
inductive RouteTarget
  | safeTools
  | sensitiveTools
  | endNode
deriving DecidableEq, BEq

/-- `tools_condition` from `langgraph.prebuilt`, as used by `route_tools`:
returns the tools branch exactly when the last message is an AI message
with a non-empty `tool_calls` list, END otherwise. -/
def tools_condition (msgs : List Message) : Bool :=
  match msgs.getLast? with
  | some (.ai _ tcs) => !tcs.isEmpty
  | _ => false

/-- `route_tools` (`graph.py` lines 269-280): END when no tool call is
requested; otherwise the first tool call of the last (assistant) message is
classified by membership in `sensitive_tool_names` — `sensitive_tools` if
it is a member, `safe_tools` otherwise. -/
def route_tools (msgs : List Message) : RouteTarget :=
  if tools_condition msgs = false then .endNode
  else
    match msgs.getLast? with
    | some (.ai _ (tc :: _)) =>
      if tc.name ∈ sensitive_tool_names then .sensitiveTools else .safeTools
    | _ => .endNode

theorem route_tools_concat (ms : List Message) (c : MsgContent)
    (tcs : List ToolCall) :
    route_tools (ms ++ [Message.ai c tcs]) =
      match tcs with
      | [] => .endNode
      | tc :: _ =>
        if tc.name ∈ sensitive_tool_names then .sensitiveTools
        else .safeTools := by
  unfold route_tools tools_condition
  rw [List.getLast?_concat]
  cases tcs with
  | nil => simp
  | cons tc rest => simp

/-- Modelled from the spec: the tool-execution node built by
`create_tool_node_with_fallback` (imported from `virtual_sales_agent.utils`
in `graph.py` line 85; that function's definition is not part of the
provided sources).  Per the spec's routing tie-break, the node processes
only the first tool-call request of the last assistant message, appending
exactly one tool-result message for it; the remaining requests stay in the
assistant message for the next planning turn.  `execTool` is the abstract
handler map (tool name/args to serialized result). -/
def execToolNode (execTool : ToolCall → String) (msgs : List Message) :
    List Message :=
  match msgs.getLast? with
  | some (.ai _ (tc :: _)) => msgs ++ [.tool tc.id (execTool tc)]
  | _ => msgs

/-- First tool call of the last assistant message (dummy call when absent). -/
def firstPendingCall (msgs : List Message) : ToolCall :=
  match msgs.getLast? with
  | some (.ai _ (tc :: _)) => tc
  | _ => ⟨"", "", []⟩

/-- Outcome of driving the compiled graph for one user turn. -/
inductive TurnOutcome
  | done (msgs : List Message)
  | suspended (msgs : List Message) (pending : ToolCall)
  | fuelOut
deriving DecidableEq, BEq

/-- Execution engine of the graph compiled in `graph.py` lines 284-293:
edges `assistant -> route_tools -> {safe_tools, sensitive_tools, END}`,
`safe_tools -> assistant`, `sensitive_tools -> assistant`, compiled with
`interrupt_before=["sensitive_tools"]` (LangGraph semantics: execution
halts before a node listed in `interrupt_before` runs, persisting the
thread until the caller resumes it).  Returns the turn outcome and the
trace of tool names whose handlers were executed during the turn.
`fuel` bounds the assistant/tool loop, `afuel` the inner re-prompt loop. -/
def runLoop (runnable : List Message → AIMsg) (execTool : ToolCall → String) :
    Nat → Nat → List Message → TurnOutcome × List String
  | 0, _, _ => (.fuelOut, [])
  | fuel + 1, afuel, msgs =>
    match assistantLoop runnable afuel msgs with
    | none => (.fuelOut, [])
    | some (r, _) =>
      let msgs1 := msgs ++ [Message.ai r.content r.toolCalls]
      match route_tools msgs1 with
      | .endNode => (.done msgs1, [])
      | .sensitiveTools => (.suspended msgs1 (r.toolCalls.headD ⟨"", "", []⟩), [])
      | .safeTools =>
        let step := runLoop runnable execTool fuel afuel (execToolNode execTool msgs1)
        (step.1, (r.toolCalls.headD ⟨"", "", []⟩).name :: step.2)

/-- Resuming an interrupted thread after an external Approve decision
(`graph.invoke(None, config)` in `main.py` line 146): LangGraph re-enters
the graph at the interrupted `sensitive_tools` node, so the pending
sensitive handler executes first, its result is appended, and the loop
continues at `assistant`. -/
def resumeApproved (runnable : List Message → AIMsg)
    (execTool : ToolCall → String) (fuel afuel : Nat) (msgs : List Message) :
    TurnOutcome × List String :=
  let step := runLoop runnable execTool fuel afuel (execToolNode execTool msgs)
  (step.1, (firstPendingCall msgs).name :: step.2)

/-- ASCII lowercasing of one character, the semantics of SQLite's
`LOWER(...)` (ASCII-only) used in `tools.py`. -/
def asciiLowerChar (c : Char) : Char :=
  if 'A' ≤ c ∧ c ≤ 'Z' then Char.ofNat (c.toNat + 32) else c

/-- ASCII lowercasing of a string (SQLite `LOWER`). -/
def asciiLower (s : String) : String := String.mk (s.data.map asciiLowerChar)

/-- One row of the `products` table: ProductId, ProductName, Category,
Description, Price, Quantity.  The price is the exact decimal value stored
in the `Price` column. -/
structure Product where
  productId : Nat
  productName : String
  category : String
  description : String
  price : ℚ
  quantity : Int
deriving DecidableEq, BEq

/-- One row of the `orders` table: OrderId, CustomerId, OrderDate, Status. -/
structure OrderRow where
  orderId : Nat
  customerId : String
  orderDate : String
  status : String
deriving DecidableEq, BEq

/-- One row of the `orders_details` table: OrderId, ProductId, Quantity,
UnitPrice. -/
structure OrderDetail where
  orderId : Nat
  productId : Nat
  quantity : Int
  unitPrice : ℚ
deriving DecidableEq, BEq

/-- The store database state: the three tables touched by the tools, plus
the rowid counter supplying `cursor.lastrowid` for `orders` inserts. -/
structure Db where
  products : List Product
  orders : List OrderRow
  orderDetails : List OrderDetail
  nextOrderId : Nat
deriving DecidableEq, BEq

/-- `SELECT ProductId, Price, Quantity FROM products WHERE
LOWER(ProductName) = LOWER(?)` followed by `fetchone()` (`tools.py` lines
391-395): the first row whose name matches case-insensitively. -/
def lookupProduct (db : Db) (name : String) : Option Product :=
  db.products.find? (fun p => asciiLower p.productName == asciiLower name)

/-- `UPDATE products SET Quantity = Quantity - ? WHERE ProductId = ?`
(`tools.py` lines 411-414). -/
def decrementStock (ps : List Product) (pid : Nat) (q : Int) : List Product :=
  ps.map (fun p => if p.productId == pid then { p with quantity := p.quantity - q } else p)

/-- Modelled from the spec: a later change to a product's unit price.  No
price-update operation exists in the provided sources; per the schema it
can only be an update of the `Price` column of the `products` table and
touches no other table. -/
def setPrice (db : Db) (pid : Nat) (newPrice : ℚ) : Db :=
  { db with products :=
      db.products.map (fun p => if p.productId == pid then { p with price := newPrice } else p) }

/-- One requested order line (`{"ProductName": ..., "Quantity": ...}` in the
`products` argument of `create_order`). -/
structure OrderItem where
  productName : String
  quantity : Int
deriving DecidableEq, BEq

/-- One entry of the `ordered_products` breakdown returned by
`create_order` (`tools.py` lines 417-423): requested name, quantity, and
the product's unit price. -/
structure OrderedProduct where
  name : String
  quantity : Int
  unitPrice : ℚ
deriving DecidableEq, BEq

/-- Round-to-nearest, ties-to-even conversion of an exact positive rational
onto the IEEE-754 binary64 grid: the exponent is floor(log2 q) clamped at
-1022 (subnormal range), the unit in the last place is 2^(e-52), and the
mantissa count of ulps is rounded half-to-even.  Finite range only (no
overflow to infinity), which covers every value arising here. -/
def rnd64Pos (q : ℚ) : ℚ :=
  let e : ℤ := max (Int.log 2 q) (-1022)
  let ulp : ℚ := (2 : ℚ) ^ (e - 52)
  let t : ℚ := q / ulp
  let fl : ℤ := ⌊t⌋
  let frac : ℚ := t - fl
  let m : ℤ :=
    if frac < 1 / 2 then fl
    else if 1 / 2 < frac then fl + 1
    else if fl % 2 = 0 then fl else fl + 1
  (m : ℚ) * ulp

/-- Python `float(...)` applied to an exact `Decimal` value
(`float(total_amount)`, `tools.py` line 431): correctly rounded conversion
to binary64. -/
def pyFloat (q : ℚ) : ℚ :=
  if q = 0 then 0
  else if 0 < q then rnd64Pos q
  else -rnd64Pos (-q)

/-- Result value of `create_order` (`tools.py` lines 346-442).  The
function returns (never raises): the constructed `ValueError` object when
no customer id is configured (line 366), the success dictionary (lines
427-434), or the rollback error dictionary (lines 438-442). -/
inductive CreateOrderResult
  | valueErrorReturned (message : String)
  | success (orderId : Nat) (message : String) (totalAmount : ℚ)
      (products : List OrderedProduct) (customerId : String)
  | error (message : String) (customerId : String)
deriving DecidableEq, BEq

/-- The per-line loop in the transaction body of `create_order` (`tools.py`
lines 386-423): resolve each product case-insensitively (raise
`ValueError("Product not found: ...")` if absent, `ValueError("Insufficient
stock for ...")` if stock < requested), insert the order detail capturing
the current unit price, decrement stock, and accumulate the exact decimal
total `Decimal(str(price)) * Decimal(str(quantity))`.  A raise becomes
`Except.error` carrying `str(e)`. -/
def processItems (orderId : Nat) :
    List OrderItem → Db → ℚ → List OrderedProduct →
    Except String (Db × ℚ × List OrderedProduct)
  | [], db, total, acc => .ok (db, total, acc)
  | item :: rest, db, total, acc =>
    match lookupProduct db item.productName with
    | none => .error ("Product not found: " ++ item.productName)
    | some product =>
      if product.quantity < item.quantity then
        .error ("Insufficient stock for " ++ item.productName)
      else
        let db1 : Db :=
          { db with
            orderDetails := db.orderDetails ++
              [⟨orderId, product.productId, item.quantity, product.price⟩],
            products := decrementStock db.products product.productId item.quantity }
        processItems orderId rest db1
          (total + product.price * (item.quantity : ℚ))
          (acc ++ [⟨item.productName, item.quantity, product.price⟩])

/-- `create_order` (`tools.py` lines 346-442).  `customerId` is
`config["configurable"].get("customer_id", None)`; a missing key and `None`
are both `none`, and `if not customer_id` also treats the empty string as
absent, returning (not raising) a `ValueError` object.  Otherwise, inside
`BEGIN TRANSACTION`: insert the order row with status `"Pending"` (taking
`cursor.lastrowid` as order id), process all lines, then `COMMIT` and
return the success dictionary with `float(total_amount)`; on any raised
error, `ROLLBACK` (restoring the pre-call database) and return the error
dictionary with the reason and customer id. -/
def create_order (customerId : Option String) (items : List OrderItem)
    (db : Db) (now : String) : Db × CreateOrderResult :=
  match customerId with
  | none => (db, .valueErrorReturned "No customer ID configured.")
  | some cid =>
    if cid == "" then (db, .valueErrorReturned "No customer ID configured.")
    else
      let orderId := db.nextOrderId
      let db0 : Db :=
        { db with
          orders := db.orders ++ [⟨orderId, cid, now, "Pending"⟩],
          nextOrderId := orderId + 1 }
      match processItems orderId items db0 0 [] with
      | .ok (db1, total, ordered) =>
        (db1, .success orderId "Order created successfully" (pyFloat total) ordered cid)
      | .error msg => (db, .error msg cid)

/-- Exact decimal total of a per-line breakdown: the sum over all lines of
unit price times quantity. -/
def linesTotal (lines : List OrderedProduct) : ℚ :=
  (lines.map (fun l => l.unitPrice * (l.quantity : ℚ))).sum

/-- Outcome of a Python call that either returns a value or raises. -/
inductive PyCall (α : Type)
  | returns (a : α)
  | raised (message : String)
deriving DecidableEq, BEq

/-- The customer-id guard of `check_order_status` (`tools.py` lines
455-459): a missing or empty `customer_id` raises
`ValueError("No customer ID configured.")`.  The body (the SQL queries over
`orders`/`orders_details`/`products`) is abstracted as `body`, since this
development only reasons about the guard. -/
def check_order_status {α : Type} (customerId : Option String)
    (body : Unit → α) : PyCall α :=
  match customerId with
  | none => .raised "No customer ID configured."
  | some cid =>
    if cid == "" then .raised "No customer ID configured."
    else .returns (body ())

/-- The customer-id guard of `search_products_recommendations` (`tools.py`
lines 540-544): a missing or empty `customer_id` raises
`ValueError("No customer ID configured.")`.  The body is abstracted as
`body` (it is nondeterministic: `ORDER BY RANDOM()`). -/
def search_products_recommendations {α : Type} (customerId : Option String)
    (body : Unit → α) : PyCall α :=
  match customerId with
  | none => .raised "No customer ID configured."
  | some cid =>
    if cid == "" then .raised "No customer ID configured."
    else .returns (body ())

/-- Substring test on character lists: the needle occurs contiguously in
the haystack. -/
def containsSub (needle : List Char) : List Char → Bool
  | [] => needle.isEmpty
  | c :: rest => needle.isPrefixOf (c :: rest) || containsSub needle rest

/-- SQLite `hay LIKE '%term%'` for a plain term (wildcard characters inside
the term itself are not modelled): substring containment. -/
def likeContains (term hay : String) : Bool := containsSub term.data hay.data

/-- The WHERE clause accumulated by `search_products` (`tools.py` lines
263-291) on top of `Quantity > 0`: an optional name/description substring
filter (skipped when the query string is empty, per `if query:`), an
optional case-insensitive category equality (same falsiness skip), and
optional price bounds (applied whenever not `None`, per
`if min_price is not None:`). -/
def matchesSearch (query category : Option String)
    (minPrice maxPrice : Option ℚ) (p : Product) : Bool :=
  (match query with
   | none => true
   | some q =>
     if q == "" then true
     else likeContains (asciiLower q) (asciiLower p.productName) ||
          likeContains (asciiLower q) (asciiLower p.description)) &&
  (match category with
   | none => true
   | some c =>
     if c == "" then true
     else asciiLower p.category == asciiLower c) &&
  (match minPrice with
   | none => true
   | some mn => decide (mn ≤ p.price)) &&
  (match maxPrice with
   | none => true
   | some mx => decide (p.price ≤ mx))

/-- SQL `MIN` aggregate: `NULL` (none) over the empty set. -/
def sqlMin : List ℚ → Option ℚ
  | [] => none
  | x :: xs => some (xs.foldl min x)

/-- SQL `MAX` aggregate: `NULL` (none) over the empty set. -/
def sqlMax : List ℚ → Option ℚ
  | [] => none
  | x :: xs => some (xs.foldl max x)

/-- SQL `AVG` aggregate: `NULL` (none) over the empty set. -/
def sqlAvg : List ℚ → Option ℚ
  | [] => none
  | x :: xs => some ((x :: xs).sum / ((x :: xs).length : ℚ))

/-- Half-to-even rounding of a rational to an integer. -/
def roundHalfEven (q : ℚ) : ℤ :=
  let fl : ℤ := ⌊q⌋
  let frac : ℚ := q - fl
  if frac < 1 / 2 then fl
  else if 1 / 2 < frac then fl + 1
  else if fl % 2 = 0 then fl else fl + 1

/-- Python `round(x, 2)` (`tools.py` line 340), modelled as exact half-even
rounding to two decimal places of the exact value. -/
def pyRound2 (q : ℚ) : ℚ := (roundHalfEven (q * 100) : ℚ) / 100

/-- One product entry of the `search_products` result (`tools.py` lines
320-330): `product_id` is `str(ProductId)`. -/
structure SearchedProduct where
  productId : String
  name : String
  category : String
  description : String
  price : ℚ
  stock : Int
deriving DecidableEq, BEq

/-- The `price_range` metadata of `search_products` (`tools.py` lines
337-341). -/
structure PriceRange where
  min : ℚ
  max : ℚ
  average : ℚ
deriving DecidableEq, BEq

/-- One `categories` metadata entry of `search_products` (`tools.py` lines
333-336). -/
structure CategoryCount where
  name : String
  productCount : Nat
deriving DecidableEq, BEq

/-- The success payload of `search_products` (`tools.py` lines 318-343). -/
structure SearchResult where
  products : List SearchedProduct
  totalResults : Nat
  categories : List CategoryCount
  priceRange : PriceRange
deriving DecidableEq, BEq

/-- `search_products` (`tools.py` lines 238-343): select the in-stock
products matching the filters, compute the per-category counts and the
MIN/MAX/AVG price statistics over all in-stock products, and build the
success dictionary.  When no product has `Quantity > 0` the three
aggregates are SQL `NULL`, and `float(price_stats["min_price"])` raises
`TypeError` (Python `float(None)`); the raise is modelled as `.raised`. -/
def search_products (query category : Option String)
    (minPrice maxPrice : Option ℚ) (db : Db) : PyCall SearchResult :=
  let inStock := db.products.filter (fun p => decide (0 < p.quantity))
  let results := inStock.filter (matchesSearch query category minPrice maxPrice)
  let cats := (inStock.map (fun p => p.category)).dedup
  let catCounts : List CategoryCount :=
    cats.map (fun c => ⟨c, (inStock.filter (fun p => p.category == c)).length⟩)
  match sqlMin (inStock.map (fun p => p.price)),
        sqlMax (inStock.map (fun p => p.price)),
        sqlAvg (inStock.map (fun p => p.price)) with
  | some mn, some mx, some av =>
    .returns
      ⟨results.map (fun p =>
          ⟨toString p.productId, p.productName, p.category, p.description,
           p.price, p.quantity⟩),
       results.length, catCounts, ⟨mn, mx, pyRound2 av⟩⟩
  | _, _, _ =>
    .raised "float() argument must be a string or a real number, not NoneType"

/-- C9: with no configured customer id (key absent, None, or empty string),
`create_order` returns a `ValueError` object as its result value — it
neither raises (as `check_order_status` and
`search_products_recommendations` do in the same situation) nor returns the
structured error dictionary used for every other `create_order` failure —
and the database state is untouched. -/
theorem c9_customer_guard_quirk (customerId : Option String)
    (h : customerId = none ∨ customerId = some "")
    (items : List OrderItem) (db : Db) (now : String)
    {α β : Type} (body : Unit → α) (body2 : Unit → β) :
    create_order customerId items db now =
      (db, .valueErrorReturned "No customer ID configured.") ∧
    (∀ m c, (create_order customerId items db now).2 ≠ .error m c) ∧
    check_order_status customerId body = .raised "No customer ID configured." ∧
    search_products_recommendations customerId body2 =
      .raised "No customer ID configured." := by
  rcases h with h | h <;> subst h <;>
    simp [create_order, check_order_status, search_products_recommendations]

/-- Closed witness for C9 at a concrete empty-string customer id. -/
theorem c9_customer_guard_quirk_witness :
    create_order (some "") [⟨"apple", 1⟩]
        ⟨[], [], [], 1⟩ "2024-01-01" =
      (⟨[], [], [], 1⟩, .valueErrorReturned "No customer ID configured.") ∧
    check_order_status (α := Nat) (some "") (fun _ => 0) =
      .raised "No customer ID configured." :=
  ⟨(c9_customer_guard_quirk (some "") (Or.inr rfl) [⟨"apple", 1⟩]
      ⟨[], [], [], 1⟩ "2024-01-01" (fun _ => (0 : Nat)) (fun _ => (0 : Nat))).1,
   (c9_customer_guard_quirk (some "") (Or.inr rfl) [⟨"apple", 1⟩]
      ⟨[], [], [], 1⟩ "2024-01-01" (fun _ => (0 : Nat)) (fun _ => (0 : Nat))).2.2.1⟩

theorem find?_decrementStock_none (ps : List Product) (pid : Nat) (q : Int)
    (n : String)
    (h : ps.find? (fun p => asciiLower p.productName == asciiLower n) = none) :
    (decrementStock ps pid q).find?
      (fun p => asciiLower p.productName == asciiLower n) = none := by
  rw [List.find?_eq_none] at h ⊢
  intro x hx
  unfold decrementStock at hx
  rcases List.mem_map.mp hx with ⟨y, hy, hyx⟩
  have hname : x.productName = y.productName := by
    by_cases hc : (y.productId == pid) = true <;> simp [hc] at hyx <;>
      simp [← hyx]
  simpa [hname] using h y hy

theorem processItems_error_of_missing :
    ∀ (items : List OrderItem) (oid : Nat) (db : Db) (total : ℚ)
      (acc : List OrderedProduct),
      (∃ item ∈ items, lookupProduct db item.productName = none) →
      ∃ msg, processItems oid items db total acc = .error msg := by
  intro items
  induction items with
  | nil => intro oid db total acc h; simp at h
  | cons item rest ih =>
    intro oid db total acc h
    rcases h with ⟨w, hw, hwnone⟩
    unfold processItems
    cases hl : lookupProduct db item.productName with
    | none => exact ⟨"Product not found: " ++ item.productName, rfl⟩
    | some product =>
      dsimp only
      by_cases hq : product.quantity < item.quantity
      · rw [if_pos hq]
        exact ⟨"Insufficient stock for " ++ item.productName, rfl⟩
      · rw [if_neg hq]
        rcases List.mem_cons.mp hw with hwi | hwr
        · subst hwi; rw [hl] at hwnone; cases hwnone
        · apply ih
          refine ⟨w, hwr, ?_⟩
          unfold lookupProduct at hwnone ⊢
          exact find?_decrementStock_none _ _ _ _ hwnone

theorem create_order_some (cid : String) (items : List OrderItem) (db : Db)
    (now : String) (h : cid ≠ "") :
    create_order (some cid) items db now =
      match processItems db.nextOrderId items
          { db with
            orders := db.orders ++ [⟨db.nextOrderId, cid, now, "Pending"⟩],
            nextOrderId := db.nextOrderId + 1 } 0 [] with
      | .ok (db1, total, ordered) =>
        (db1, .success db.nextOrderId "Order created successfully"
          (pyFloat total) ordered cid)
      | .error msg => (db, .error msg cid) := by
  unfold create_order
  dsimp only
  rw [beq_eq_false_iff_ne.mpr h]
  simp

/-- C2: when any line of a multi-line order fails (unknown product name or
insufficient stock), `create_order` aborts the entire unit of work: the
database is exactly the pre-call database (no stock decrement for any line,
no surviving order-detail row, no surviving order row), and the call
returns the structured error dictionary carrying the failure reason and the
customer id rather than raising.  In particular an order containing a line
whose product name matches no product always takes this path. -/
theorem c2_atomic_rollback (cid : String) (items : List OrderItem) (db : Db)
    (now : String) (h : cid ≠ "") :
    (∀ msg c, (create_order (some cid) items db now).2 = .error msg c →
      (create_order (some cid) items db now).1 = db ∧ c = cid) ∧
    ((∃ item ∈ items, lookupProduct db item.productName = none) →
      ∃ msg, create_order (some cid) items db now = (db, .error msg cid)) := by
  rw [create_order_some cid items db now h]
  constructor
  · intro msg c
    cases hp : processItems db.nextOrderId items
        { db with
          orders := db.orders ++ [⟨db.nextOrderId, cid, now, "Pending"⟩],
          nextOrderId := db.nextOrderId + 1 } 0 [] with
    | ok triple =>
      obtain ⟨db1, total, ordered⟩ := triple
      simp
    | error m => simp; intro h1 h2; exact h2.symm
  · intro hmiss
    have hmiss' : ∃ item ∈ items,
        lookupProduct
          { db with
            orders := db.orders ++ [⟨db.nextOrderId, cid, now, "Pending"⟩],
            nextOrderId := db.nextOrderId + 1 } item.productName = none := by
      rcases hmiss with ⟨w, hw, hwn⟩
      exact ⟨w, hw, hwn⟩
    rcases processItems_error_of_missing items db.nextOrderId _ 0 [] hmiss' with
      ⟨msg, hmsg⟩
    rw [hmsg]
    exact ⟨msg, rfl⟩

/-- Closed witness for C2: a two-line order whose first line succeeds
("apple", stock 5) and whose second line names an unknown product leaves
the database — in particular the apple stock — exactly as before and
returns the error dictionary with the customer id. -/
theorem c2_atomic_rollback_witness :
    ∃ msg, create_order (some "c1") [⟨"apple", 1⟩, ⟨"ghost", 2⟩]
        ⟨[⟨1, "apple", "fruits", "fresh", 2, 5⟩], [], [], 1⟩ "2024-01-01" =
      (⟨[⟨1, "apple", "fruits", "fresh", 2, 5⟩], [], [], 1⟩,
       .error msg "c1") :=
  (c2_atomic_rollback "c1" [⟨"apple", 1⟩, ⟨"ghost", 2⟩]
      ⟨[⟨1, "apple", "fruits", "fresh", 2, 5⟩], [], [], 1⟩ "2024-01-01"
      (by decide)).2
    ⟨⟨"ghost", 2⟩, by simp, by decide⟩

theorem create_order_single_line (pid : Nat) (name cat desc : String)
    (price : ℚ) (s q : Int) (cid now : String) (orders : List OrderRow)
    (details : List OrderDetail) (nid : Nat) (hcid : cid ≠ "") :
    (q ≤ s →
      create_order (some cid) [⟨name, q⟩]
          ⟨[⟨pid, name, cat, desc, price, s⟩], orders, details, nid⟩ now =
        (⟨[⟨pid, name, cat, desc, price, s - q⟩],
          orders ++ [⟨nid, cid, now, "Pending"⟩],
          details ++ [⟨nid, pid, q, price⟩], nid + 1⟩,
         .success nid "Order created successfully" (pyFloat (price * (q : ℚ)))
           [⟨name, q, price⟩] cid)) ∧
    (s < q →
      create_order (some cid) [⟨name, q⟩]
          ⟨[⟨pid, name, cat, desc, price, s⟩], orders, details, nid⟩ now =
        (⟨[⟨pid, name, cat, desc, price, s⟩], orders, details, nid⟩,
         .error ("Insufficient stock for " ++ name) cid)) := by
  rw [create_order_some _ _ _ _ hcid]
  have hfind : lookupProduct
      { products := [⟨pid, name, cat, desc, price, s⟩],
        orders := orders ++ [⟨nid, cid, now, "Pending"⟩],
        orderDetails := details, nextOrderId := nid + 1 } name =
      some ⟨pid, name, cat, desc, price, s⟩ := by
    simp [lookupProduct, List.find?]
  constructor
  · intro hqs
    unfold processItems
    rw [hfind]
    dsimp only
    rw [if_neg (not_lt.mpr hqs)]
    unfold processItems
    simp [decrementStock, zero_add]
  · intro hsq
    unfold processItems
    rw [hfind]
    dsimp only
    rw [if_pos hsq]

/-- C3: against a database holding one product with stock `s`, a
single-line order requesting quantity `q` of it succeeds whenever `q ≤ s`,
leaving stock `s - q`, appending the Pending order row and the detail row,
and returning the success payload; and fails with the insufficient-stock
error whenever `q > s`, leaving the database unchanged. -/
theorem c3_stock_check (pid : Nat) (name cat desc : String) (price : ℚ)
    (s q : Int) (cid now : String) (orders : List OrderRow)
    (details : List OrderDetail) (nid : Nat) (hcid : cid ≠ "") :
    (q ≤ s →
      create_order (some cid) [⟨name, q⟩]
          ⟨[⟨pid, name, cat, desc, price, s⟩], orders, details, nid⟩ now =
        (⟨[⟨pid, name, cat, desc, price, s - q⟩],
          orders ++ [⟨nid, cid, now, "Pending"⟩],
          details ++ [⟨nid, pid, q, price⟩], nid + 1⟩,
         .success nid "Order created successfully" (pyFloat (price * (q : ℚ)))
           [⟨name, q, price⟩] cid)) ∧
    (s < q →
      create_order (some cid) [⟨name, q⟩]
          ⟨[⟨pid, name, cat, desc, price, s⟩], orders, details, nid⟩ now =
        (⟨[⟨pid, name, cat, desc, price, s⟩], orders, details, nid⟩,
         .error ("Insufficient stock for " ++ name) cid)) :=
  create_order_single_line pid name cat desc price s q cid now orders details
    nid hcid

/-- Closed witness for C3 at stock 5: requesting 5 succeeds and leaves
stock 0; requesting 6 fails with the insufficient-stock error and leaves
stock 5. -/
theorem c3_stock_check_witness :
    create_order (some "c1") [⟨"gala apple", 5⟩]
        ⟨[⟨1, "gala apple", "fruits", "fresh", 2, 5⟩], [], [], 1⟩ "t" =
      (⟨[⟨1, "gala apple", "fruits", "fresh", 2, 0⟩],
        [⟨1, "c1", "t", "Pending"⟩], [⟨1, 1, 5, 2⟩], 2⟩,
       .success 1 "Order created successfully" (pyFloat (2 * (5 : ℚ)))
         [⟨"gala apple", 5, 2⟩] "c1") ∧
    create_order (some "c1") [⟨"gala apple", 6⟩]
        ⟨[⟨1, "gala apple", "fruits", "fresh", 2, 5⟩], [], [], 1⟩ "t" =
      (⟨[⟨1, "gala apple", "fruits", "fresh", 2, 5⟩], [], [], 1⟩,
       .error ("Insufficient stock for " ++ "gala apple") "c1") := by
  constructor
  · have h := (c3_stock_check 1 "gala apple" "fruits" "fresh" 2 5 5 "c1" "t"
      [] [] 1 (by decide)).1 (by decide)
    simpa using h
  · have h := (c3_stock_check 1 "gala apple" "fruits" "fresh" 2 5 6 "c1" "t"
      [] [] 1 (by decide)).2 (by decide)
    simpa using h

theorem processItems_ok_spec :
    ∀ (items : List OrderItem) (oid : Nat) (db : Db) (t0 : ℚ)
      (acc : List OrderedProduct) (db' : Db) (t' : ℚ)
      (ls : List OrderedProduct),
      processItems oid items db t0 acc = .ok (db', t', ls) →
      ∃ newls newdetails,
        ls = acc ++ newls ∧
        t' = t0 + linesTotal newls ∧
        db'.orders = db.orders ∧
        db'.nextOrderId = db.nextOrderId ∧
        db'.orderDetails = db.orderDetails ++ newdetails ∧
        newdetails.map (fun d => (d.orderId, d.quantity, d.unitPrice)) =
          newls.map (fun l => ((oid : Nat), l.quantity, l.unitPrice)) ∧
        newls.map (fun l => (l.name, l.quantity)) =
          items.map (fun i => (i.productName, i.quantity)) := by
  intro items
  induction items with
  | nil =>
    intro oid db t0 acc db' t' ls hp
    unfold processItems at hp
    simp at hp
    obtain ⟨h1, h2, h3⟩ := hp
    refine ⟨[], [], by simp [h3.symm], ?_, by rw [h1], by rw [h1], by simp [h1], by simp, by simp⟩
    simp [linesTotal, h2.symm]
  | cons item rest ih =>
    intro oid db t0 acc db' t' ls hp
    unfold processItems at hp
    cases hl : lookupProduct db item.productName with
    | none => rw [hl] at hp; cases hp
    | some product =>
      rw [hl] at hp
      dsimp only at hp
      by_cases hq : product.quantity < item.quantity
      · rw [if_pos hq] at hp; cases hp
      · rw [if_neg hq] at hp
        rcases ih oid _ _ _ db' t' ls hp with
          ⟨newls, newdetails, hls, ht, ho, hn, hd, hmapd, hmapl⟩
        refine ⟨⟨item.productName, item.quantity, product.price⟩ :: newls,
          ⟨oid, product.productId, item.quantity, product.price⟩ :: newdetails,
          ?_, ?_, ?_, ?_, ?_, ?_, ?_⟩
        · rw [hls]; simp
        · rw [ht]; simp [linesTotal]; ring
        · simpa using ho
        · simpa using hn
        · rw [hd]; simp
        · simpa using hmapd
        · simpa using hmapl

theorem pow_two_mul_int_dyadic (m j : ℤ) :
    ∃ (n : ℤ) (k : ℕ), (m : ℚ) * (2 : ℚ) ^ j = (n : ℚ) / 2 ^ k := by
  cases j with
  | ofNat j =>
    refine ⟨m * 2 ^ j, 0, ?_⟩
    rw [show (Int.ofNat j) = (j : ℤ) from rfl, zpow_natCast]
    push_cast
    ring
  | negSucc j =>
    refine ⟨m, j + 1, ?_⟩
    rw [zpow_negSucc, div_eq_mul_inv]

theorem pyFloat_dyadic (q : ℚ) :
    ∃ (n : ℤ) (k : ℕ), pyFloat q = (n : ℚ) / 2 ^ k := by
  have hpos : ∀ r : ℚ, ∃ (n : ℤ) (k : ℕ), rnd64Pos r = (n : ℚ) / 2 ^ k := by
    intro r
    unfold rnd64Pos
    exact pow_two_mul_int_dyadic _ _
  unfold pyFloat
  by_cases h0 : q = 0
  · rw [if_pos h0]; exact ⟨0, 0, by norm_num⟩
  · rw [if_neg h0]
    by_cases hq : 0 < q
    · rw [if_pos hq]; exact hpos q
    · rw [if_neg hq]
      rcases hpos (-q) with ⟨n, k, hnk⟩
      exact ⟨-n, k, by rw [hnk]; push_cast; ring⟩

theorem div_pow_two_ne_three_tenths (n : ℤ) (k : ℕ) :
    (n : ℚ) / 2 ^ k ≠ 3 / 10 := by
  intro h
  have h2 : ((2 : ℚ) ^ k) ≠ 0 := by positivity
  have hq : (n : ℚ) * 10 = 3 * 2 ^ k := by
    field_simp at h
    linarith
  have hz : (n * 10 : ℤ) = 3 * 2 ^ k := by exact_mod_cast hq
  have h5 : (5 : ℤ) ∣ 3 * 2 ^ k := ⟨n * 2, by linarith⟩
  have hp : Prime (5 : ℤ) := by norm_num
  rcases hp.dvd_mul.mp h5 with h3 | hpow
  · norm_num at h3
  · have h25 : (5 : ℤ) ∣ 2 := hp.dvd_of_dvd_pow hpow
    norm_num at h25

/-- Counterexample for C7: a single-line order of three units at unit price
0.10 has exact decimal total 0.30, but the returned `total_amount` is
`float(Decimal("0.3"))`, a binary64 value, and no binary64 value equals
3/10 — the returned total differs from the exact sum of unit price times
quantity, contradicting the claim that the returned total carries no
floating-point rounding from the returned value's representation. -/
theorem c7_counterexample :
    (create_order (some "c1") [⟨"widget", 3⟩]
        ⟨[⟨1, "widget", "misc", "d", 1 / 10, 10⟩], [], [], 1⟩ "t").2 =
      .success 1 "Order created successfully" (pyFloat (3 / 10))
        [⟨"widget", 3, 1 / 10⟩] "c1" ∧
    pyFloat (3 / 10) ≠ 3 / 10 := by
  constructor
  · have h := (create_order_single_line 1 "widget" "misc" "d" (1 / 10) 10 3
      "c1" "t" [] [] 1 (by decide)).1 (by decide)
    rw [h]
    norm_num
  · rcases pyFloat_dyadic (3 / 10) with ⟨n, k, hnk⟩
    rw [hnk]
    exact div_pow_two_ne_three_tenths n k

/-- C7 (amended): the order total is accumulated in exact decimal
arithmetic — on success the per-line breakdown's exact sum of unit price
times quantity is computed without drift — but the returned `total_amount`
is the binary64 floating-point conversion (`float(total_amount)`) of that
exact decimal sum, not the exact sum itself. -/
theorem c7_decimal_total (cid : String) (items : List OrderItem) (db : Db)
    (now : String) (oid : Nat) (msg : String) (t : ℚ)
    (lines : List OrderedProduct) (c : String) (hcid : cid ≠ "")
    (hs : (create_order (some cid) items db now).2 =
      .success oid msg t lines c) :
    t = pyFloat (linesTotal lines) := by
  rw [create_order_some _ _ _ _ hcid] at hs
  cases hp : processItems db.nextOrderId items
      { db with
        orders := db.orders ++ [⟨db.nextOrderId, cid, now, "Pending"⟩],
        nextOrderId := db.nextOrderId + 1 } 0 [] with
  | ok triple =>
    obtain ⟨db1, total, ordered⟩ := triple
    rw [hp] at hs
    simp only [CreateOrderResult.success.injEq] at hs
    obtain ⟨_, _, ht, hl, _⟩ := hs
    rcases processItems_ok_spec items db.nextOrderId _ 0 [] db1 total ordered hp
      with ⟨newls, _, hls, htot, _⟩
    rw [← ht, ← hl, hls, htot]
    simp
  | error m =>
    rw [hp] at hs
    simp at hs

/-- Closed witness for the amended C7: a two-line order (2 pens at 3.00,
1 pad at 4.00) returns exactly the binary64 conversion of the exact decimal
sum of its breakdown lines. -/
theorem c7_decimal_total_witness :
    (create_order (some "c7") [⟨"pen", 2⟩, ⟨"pad", 1⟩]
        ⟨[⟨1, "pen", "m", "d", 3, 9⟩, ⟨2, "pad", "m", "d", 4, 6⟩],
         [], [], 5⟩ "t").2 =
      .success 5 "Order created successfully" (pyFloat (0 + 3 * (2 : ℚ) + 4 * (1 : ℚ)))
        [⟨"pen", 2, 3⟩, ⟨"pad", 1, 4⟩] "c7" ∧
    pyFloat (0 + 3 * (2 : ℚ) + 4 * (1 : ℚ)) =
      pyFloat (linesTotal [⟨"pen", 2, 3⟩, ⟨"pad", 1, 4⟩]) := by
  have h1 : (create_order (some "c7") [⟨"pen", 2⟩, ⟨"pad", 1⟩]
      ⟨[⟨1, "pen", "m", "d", 3, 9⟩, ⟨2, "pad", "m", "d", 4, 6⟩],
       [], [], 5⟩ "t").2 =
      .success 5 "Order created successfully"
        (pyFloat (0 + 3 * (2 : ℚ) + 4 * (1 : ℚ)))
        [⟨"pen", 2, 3⟩, ⟨"pad", 1, 4⟩] "c7" := by
    rw [create_order_some _ _ _ _ (by decide)]
    have hfind1 : lookupProduct
        { products := [⟨1, "pen", "m", "d", 3, 9⟩, ⟨2, "pad", "m", "d", 4, 6⟩],
          orders := ([] : List OrderRow) ++ [⟨5, "c7", "t", "Pending"⟩],
          orderDetails := [], nextOrderId := 5 + 1 } "pen" =
        some ⟨1, "pen", "m", "d", 3, 9⟩ := by
      simp [lookupProduct, List.find?]
    unfold processItems
    rw [hfind1]
    dsimp only
    rw [if_neg (by decide : ¬(9 : ℤ) < 2)]
    unfold processItems
    have hb : (asciiLower "pen" == asciiLower "pad") = false := by decide
    have hfind2 : lookupProduct
        { products :=
            decrementStock
              [⟨1, "pen", "m", "d", 3, 9⟩, ⟨2, "pad", "m", "d", 4, 6⟩] 1 2,
          orders := ([] : List OrderRow) ++ [⟨5, "c7", "t", "Pending"⟩],
          orderDetails := ([] : List OrderDetail) ++ [⟨5, 1, 2, 3⟩],
          nextOrderId := 5 + 1 } "pad" =
        some ⟨2, "pad", "m", "d", 4, 6⟩ := by
      simp [lookupProduct, List.find?, decrementStock, hb]
    rw [hfind2]
    dsimp only
    rw [if_neg (by decide : ¬(6 : ℤ) < 1)]
    unfold processItems
    simp only [Except.ok.injEq, Prod.mk.injEq, CreateOrderResult.success.injEq]
    norm_num
  refine ⟨h1, ?_⟩
  exact c7_decimal_total "c7" [⟨"pen", 2⟩, ⟨"pad", 1⟩]
    ⟨[⟨1, "pen", "m", "d", 3, 9⟩, ⟨2, "pad", "m", "d", 4, 6⟩], [], [], 5⟩
    "t" 5 "Order created successfully" (pyFloat (0 + 3 * (2 : ℚ) + 4 * (1 : ℚ)))
    [⟨"pen", 2, 3⟩, ⟨"pad", 1, 4⟩] "c7" (by decide) h1

/-- C8: on a fully successful order, the order row is created with status
`"Pending"` for this customer, the per-line breakdown matches the requested
names and quantities, the appended order-detail rows capture the unit price
recorded in the breakdown at the moment of purchase, a later price change
(an update of the products table) leaves the placed order's rows untouched,
product resolution is case-insensitive in the name, and the returned
payload carries the order id, the success message, and the customer id. -/
theorem c8_success_payload (cid : String) (items : List OrderItem) (db : Db)
    (now : String) (oid : Nat) (msg : String) (t : ℚ)
    (lines : List OrderedProduct) (c : String) (hcid : cid ≠ "")
    (hs : (create_order (some cid) items db now).2 =
      .success oid msg t lines c) :
    oid = db.nextOrderId ∧ c = cid ∧ msg = "Order created successfully" ∧
    (create_order (some cid) items db now).1.orders =
      db.orders ++ [⟨db.nextOrderId, cid, now, "Pending"⟩] ∧
    lines.map (fun l => (l.name, l.quantity)) =
      items.map (fun i => (i.productName, i.quantity)) ∧
    (∃ newDetails,
      (create_order (some cid) items db now).1.orderDetails =
        db.orderDetails ++ newDetails ∧
      newDetails.map (fun d => (d.orderId, d.quantity, d.unitPrice)) =
        lines.map (fun l => ((oid : Nat), l.quantity, l.unitPrice))) ∧
    (∀ pid newPrice,
      (setPrice (create_order (some cid) items db now).1 pid
          newPrice).orderDetails =
        (create_order (some cid) items db now).1.orderDetails ∧
      (setPrice (create_order (some cid) items db now).1 pid
          newPrice).orders =
        (create_order (some cid) items db now).1.orders) ∧
    (∀ n1 n2 : String, asciiLower n1 = asciiLower n2 →
      lookupProduct db n1 = lookupProduct db n2) := by
  rw [create_order_some _ _ _ _ hcid] at hs ⊢
  cases hp : processItems db.nextOrderId items
      { db with
        orders := db.orders ++ [⟨db.nextOrderId, cid, now, "Pending"⟩],
        nextOrderId := db.nextOrderId + 1 } 0 [] with
  | error m =>
    rw [hp] at hs
    simp at hs
  | ok triple =>
    obtain ⟨db1, total, ordered⟩ := triple
    rw [hp] at hs
    dsimp only at hs ⊢
    simp only [CreateOrderResult.success.injEq] at hs
    obtain ⟨hoid, hmsg, ht, hl, hc⟩ := hs
    subst hoid; subst hmsg; subst ht; subst hl; subst hc
    rcases processItems_ok_spec items db.nextOrderId _ 0 [] db1 total ordered hp
      with ⟨newls, newdetails, hls, htot, ho, hn, hd, hmapd, hmapl⟩
    refine ⟨rfl, rfl, rfl, ?_, ?_, ?_, ?_, ?_⟩
    · rw [ho]
    · rw [hls]; simpa using hmapl
    · refine ⟨newdetails, ?_, ?_⟩
      · rw [hd]
      · rw [hls]; simpa using hmapd
    · intro pid newPrice; exact ⟨rfl, rfl⟩
    · intro n1 n2 hn12
      unfold lookupProduct
      congr 1
      funext p
      rw [hn12]

/-- Closed witness for C8: ordering 2 of product "Mug" (stock 4, price 5)
under the lowercased name "mug" succeeds with order id 3, a Pending order
row, a matching detail row, and the success payload fields. -/
theorem c8_success_payload_witness :
    3 = (⟨[⟨7, "Mug", "kitchen", "ceramic", 5, 4⟩], [], [], 3⟩ : Db).nextOrderId ∧
    ("c8" : String) = "c8" ∧
    ("Order created successfully" : String) = "Order created successfully" ∧
    (create_order (some "c8") [⟨"mug", 2⟩]
        ⟨[⟨7, "Mug", "kitchen", "ceramic", 5, 4⟩], [], [], 3⟩
        "t").1.orders =
      ([] : List OrderRow) ++ [⟨3, "c8", "t", "Pending"⟩] ∧
    ([⟨"mug", 2, 5⟩] : List OrderedProduct).map (fun l => (l.name, l.quantity)) =
      ([⟨"mug", 2⟩] : List OrderItem).map (fun i => (i.productName, i.quantity)) ∧
    (∃ newDetails,
      (create_order (some "c8") [⟨"mug", 2⟩]
          ⟨[⟨7, "Mug", "kitchen", "ceramic", 5, 4⟩], [], [], 3⟩
          "t").1.orderDetails =
        ([] : List OrderDetail) ++ newDetails ∧
      newDetails.map (fun d => (d.orderId, d.quantity, d.unitPrice)) =
        ([⟨"mug", 2, 5⟩] : List OrderedProduct).map
          (fun l => ((3 : Nat), l.quantity, l.unitPrice))) ∧
    (∀ pid newPrice,
      (setPrice (create_order (some "c8") [⟨"mug", 2⟩]
          ⟨[⟨7, "Mug", "kitchen", "ceramic", 5, 4⟩], [], [], 3⟩
          "t").1 pid newPrice).orderDetails =
        (create_order (some "c8") [⟨"mug", 2⟩]
          ⟨[⟨7, "Mug", "kitchen", "ceramic", 5, 4⟩], [], [], 3⟩
          "t").1.orderDetails ∧
      (setPrice (create_order (some "c8") [⟨"mug", 2⟩]
          ⟨[⟨7, "Mug", "kitchen", "ceramic", 5, 4⟩], [], [], 3⟩
          "t").1 pid newPrice).orders =
        (create_order (some "c8") [⟨"mug", 2⟩]
          ⟨[⟨7, "Mug", "kitchen", "ceramic", 5, 4⟩], [], [], 3⟩
          "t").1.orders) ∧
    (∀ n1 n2 : String, asciiLower n1 = asciiLower n2 →
      lookupProduct ⟨[⟨7, "Mug", "kitchen", "ceramic", 5, 4⟩], [], [], 3⟩ n1 =
      lookupProduct ⟨[⟨7, "Mug", "kitchen", "ceramic", 5, 4⟩], [], [], 3⟩ n2) := by
  have h1 : (create_order (some "c8") [⟨"mug", 2⟩]
      ⟨[⟨7, "Mug", "kitchen", "ceramic", 5, 4⟩], [], [], 3⟩ "t").2 =
      .success 3 "Order created successfully" (pyFloat (0 + 5 * (2 : ℚ)))
        [⟨"mug", 2, 5⟩] "c8" := by
    rw [create_order_some _ _ _ _ (by decide)]
    have hfind : lookupProduct
        { products := [⟨7, "Mug", "kitchen", "ceramic", 5, 4⟩],
          orders := ([] : List OrderRow) ++ [⟨3, "c8", "t", "Pending"⟩],
          orderDetails := [], nextOrderId := 3 + 1 } "mug" =
        some ⟨7, "Mug", "kitchen", "ceramic", 5, 4⟩ := by
      have hb : (asciiLower "Mug" == asciiLower "mug") = true := by decide
      simp [lookupProduct, List.find?, hb]
    unfold processItems
    rw [hfind]
    dsimp only
    rw [if_neg (by decide : ¬(4 : ℤ) < 2)]
    unfold processItems
    simp only [Except.ok.injEq, Prod.mk.injEq, CreateOrderResult.success.injEq]
    norm_num
  exact c8_success_payload "c8" [⟨"mug", 2⟩]
    ⟨[⟨7, "Mug", "kitchen", "ceramic", 5, 4⟩], [], [], 3⟩ "t" 3
    "Order created successfully" (pyFloat (0 + 5 * (2 : ℚ))) [⟨"mug", 2, 5⟩]
    "c8" (by decide) h1

/-- Number of re-prompt messages already present in the conversation. -/
def countReprompts (msgs : List Message) : Nat :=
  msgs.countP (fun m => m == repromptMsg)

/-- A planner that returns an empty response until it has been re-prompted
twice, then answers substantively.  A legal planner behaviour: the planner
is an opaque function from history to a message. -/
def stubbornPlanner (msgs : List Message) : AIMsg :=
  if 2 ≤ countReprompts msgs then ⟨.text "Here is a real answer.", []⟩
  else ⟨.text "", []⟩

/-- Counterexample for C5: against a planner that stays empty until the
second re-prompt, the assistant loop of `Assistant.__call__` invokes the
planner three times (not at most two) and surfaces the third, substantive
response — it does not give up after a single re-prompt. -/
theorem c5_counterexample :
    assistantLoop stubbornPlanner 10 [] =
      some (⟨.text "Here is a real answer.", []⟩, 3) ∧ ¬(3 ≤ 2) := by
  constructor
  · decide
  · decide

/-- C5 (amended): the assistant loop re-prompts an empty planner repeatedly
(not exactly once): whenever it terminates it surfaces the first
non-empty response, after at least one and at most `fuel` invocations for
any fuel bound; and against a planner that always returns empty content
with no tool call it never terminates (it is still looping at every fuel
bound). -/
theorem c5_reprompt_until_nonempty :
    (∀ (runnable : List Message → AIMsg) (fuel : Nat) (msgs : List Message)
        (a : AIMsg) (n : Nat),
        assistantLoop runnable fuel msgs = some (a, n) →
        isEmptyResponse a = false ∧ 1 ≤ n ∧ n ≤ fuel) ∧
    (∀ (fuel : Nat) (msgs : List Message),
        assistantLoop (fun _ => ⟨.text "", []⟩) fuel msgs = none) := by
  constructor
  · intro runnable fuel
    induction fuel with
    | zero => intro msgs a n h; cases h
    | succ f ih =>
      intro msgs a n h
      unfold assistantLoop at h
      by_cases he : isEmptyResponse (runnable msgs) = true
      · rw [if_pos he] at h
        cases hr : assistantLoop runnable f (msgs ++ [repromptMsg]) with
        | none => rw [hr] at h; cases h
        | some p =>
          obtain ⟨a', n'⟩ := p
          rw [hr] at h
          simp only [Option.some.injEq, Prod.mk.injEq] at h
          obtain ⟨ha, hn⟩ := h
          rcases ih (msgs ++ [repromptMsg]) a' n' hr with ⟨h1, h2, h3⟩
          subst ha; subst hn
          exact ⟨h1, by omega, by omega⟩
      · rw [if_neg he] at h
        simp only [Option.some.injEq, Prod.mk.injEq] at h
        obtain ⟨ha, hn⟩ := h
        subst ha; subst hn
        exact ⟨by simpa using he, le_refl 1, by omega⟩
  · intro fuel
    induction fuel with
    | zero => intro msgs; rfl
    | succ f ih =>
      intro msgs
      unfold assistantLoop
      rw [if_pos (by decide : isEmptyResponse ⟨.text "", []⟩ = true)]
      rw [ih (msgs ++ [repromptMsg])]

/-- Closed witness for the amended C5: a planner that answers substantively
at once terminates after exactly one invocation with a non-empty result. -/
theorem c5_reprompt_until_nonempty_witness :
    isEmptyResponse ⟨.text "hi", []⟩ = false ∧ 1 ≤ 1 ∧ 1 ≤ 1 :=
  c5_reprompt_until_nonempty.1 (fun _ => ⟨.text "hi", []⟩) 1 []
    ⟨.text "hi", []⟩ 1 (by decide)

/-- Counterexample for C6: a first tool-call request naming a tool
registered in neither list ("imaginary_tool") is silently routed to the
safe-tools branch by `route_tools` — no `UnknownTool` failure exists in the
code. -/
theorem c6_counterexample :
    ("imaginary_tool" ∉ sensitive_tool_names) ∧
    ("imaginary_tool" ∉ safe_tool_names) ∧
    route_tools [Message.ai (.text "") [⟨"imaginary_tool", "call_1", []⟩]] =
      .safeTools := by
  refine ⟨by decide, by decide, by decide⟩

/-- C6 (amended): classification is a membership test against the
sensitive set only: an assistant message whose first tool call names any
tool outside `sensitive_tool_names` — registered or not — is routed to the
safe-tools branch; routing is total and never fails with an unknown-tool
error. -/
theorem c6_unknown_tool_routed_safe (msgs : List Message) (c : MsgContent)
    (tc : ToolCall) (rest : List ToolCall)
    (h : tc.name ∉ sensitive_tool_names) :
    route_tools (msgs ++ [Message.ai c (tc :: rest)]) = .safeTools := by
  rw [route_tools_concat]
  simp [h]

/-- Closed witness for the amended C6 at a concrete unregistered name. -/
theorem c6_unknown_tool_routed_safe_witness :
    route_tools ([] ++ [Message.ai (.text "") [⟨"made_up_tool", "id9", []⟩]]) =
      .safeTools :=
  c6_unknown_tool_routed_safe [] (.text "") ⟨"made_up_tool", "id9", []⟩ []
    (by decide)

/-- C4: for an assistant message carrying one or more tool-call requests,
the routing decision of `route_tools` is a function of the first request's
classification alone (the remaining requests do not influence it), and the
tool node step appends exactly one tool-result message — the one answering
the first request — leaving the remaining requests for the next planning
turn. -/
theorem c4_first_call_only (msgs : List Message) (c : MsgContent)
    (tc : ToolCall) (rest : List ToolCall) (execTool : ToolCall → String) :
    route_tools (msgs ++ [Message.ai c (tc :: rest)]) =
      (if tc.name ∈ sensitive_tool_names then .sensitiveTools
       else .safeTools) ∧
    execToolNode execTool (msgs ++ [Message.ai c (tc :: rest)]) =
      (msgs ++ [Message.ai c (tc :: rest)]) ++ [.tool tc.id (execTool tc)] := by
  constructor
  · rw [route_tools_concat]
  · unfold execToolNode
    rw [List.getLast?_concat]

theorem runLoop_no_sensitive (runnable : List Message → AIMsg)
    (execTool : ToolCall → String) :
    ∀ (fuel afuel : Nat) (msgs : List Message),
      ∀ n ∈ (runLoop runnable execTool fuel afuel msgs).2,
        n ∉ sensitive_tool_names := by
  intro fuel
  induction fuel with
  | zero => intro afuel msgs n hn; cases hn
  | succ f ih =>
    intro afuel msgs n hn
    unfold runLoop at hn
    cases ha : assistantLoop runnable afuel msgs with
    | none => rw [ha] at hn; cases hn
    | some p =>
      obtain ⟨r, k⟩ := p
      rw [ha] at hn
      dsimp only at hn
      cases hr : route_tools (msgs ++ [Message.ai r.content r.toolCalls]) with
      | endNode => rw [hr] at hn; cases hn
      | sensitiveTools => rw [hr] at hn; cases hn
      | safeTools =>
        rw [hr] at hn
        dsimp only at hn
        rcases List.mem_cons.mp hn with hhead | htail
        · subst hhead
          rw [route_tools_concat] at hr
          cases htc : r.toolCalls with
          | nil => rw [htc] at hr; cases hr
          | cons tc rest =>
            rw [htc] at hr
            dsimp only at hr
            by_cases hmem : tc.name ∈ sensitive_tool_names
            · rw [if_pos hmem] at hr; cases hr
            · simpa using hmem
        · exact ih afuel _ n htail

theorem runLoop_suspended_shape (runnable : List Message → AIMsg)
    (execTool : ToolCall → String) :
    ∀ (fuel afuel : Nat) (msgs msgs1 : List Message) (pending : ToolCall),
      (runLoop runnable execTool fuel afuel msgs).1 = .suspended msgs1 pending →
      ∃ c rest, msgs1.getLast? = some (.ai c (pending :: rest)) ∧
        pending.name ∈ sensitive_tool_names ∧
        route_tools msgs1 = .sensitiveTools := by
  intro fuel
  induction fuel with
  | zero => intro afuel msgs msgs1 pending h; cases h
  | succ f ih =>
    intro afuel msgs msgs1 pending h
    unfold runLoop at h
    cases ha : assistantLoop runnable afuel msgs with
    | none => rw [ha] at h; cases h
    | some p =>
      obtain ⟨r, k⟩ := p
      rw [ha] at h
      dsimp only at h
      cases hr : route_tools (msgs ++ [Message.ai r.content r.toolCalls]) with
      | endNode => rw [hr] at h; cases h
      | safeTools =>
        rw [hr] at h
        dsimp only at h
        exact ih afuel _ msgs1 pending h
      | sensitiveTools =>
        rw [hr] at h
        dsimp only at h
        simp only [TurnOutcome.suspended.injEq] at h
        obtain ⟨hm, hp⟩ := h
        subst hm
        have hr' := hr
        rw [route_tools_concat] at hr'
        cases htc : r.toolCalls with
        | nil => rw [htc] at hr'; cases hr'
        | cons tc rest =>
          rw [htc] at hr'
          dsimp only at hr'
          by_cases hmem : tc.name ∈ sensitive_tool_names
          · rw [htc] at hr hp
            have hp' : tc = pending := hp
            subst hp'
            refine ⟨r.content, rest, ?_, hmem, hr⟩
            rw [List.getLast?_concat]
          · rw [if_neg hmem] at hr'; cases hr'

/-- C1: in the compiled graph (`interrupt_before=["sensitive_tools"]`), a
sensitive tool handler is never invoked without a prior external Approve:
(1) a turn run executes no handler whose name is in the sensitive set;
(2) whenever the run stops suspended, the sole pending call is the first
tool call of the final assistant message, its classification is sensitive,
and the routing function selected the sensitive branch for that message —
execution halted before the sensitive node ran; (3) resuming the thread
after an Approve (`graph.invoke(None, config)`) is exactly what executes
the pending handler: the resumed run's execution trace begins with the
pending call's name. -/
theorem c1_sensitive_gated_by_approval (runnable : List Message → AIMsg)
    (execTool : ToolCall → String) (fuel afuel : Nat) (msgs : List Message) :
    (∀ n ∈ (runLoop runnable execTool fuel afuel msgs).2,
        n ∉ sensitive_tool_names) ∧
    (∀ msgs1 pending,
        (runLoop runnable execTool fuel afuel msgs).1 =
          .suspended msgs1 pending →
        ∃ c rest, msgs1.getLast? = some (.ai c (pending :: rest)) ∧
          pending.name ∈ sensitive_tool_names ∧
          route_tools msgs1 = .sensitiveTools) ∧
    (resumeApproved runnable execTool fuel afuel msgs).2 =
      (firstPendingCall msgs).name ::
        (runLoop runnable execTool fuel afuel (execToolNode execTool msgs)).2 :=
  ⟨runLoop_no_sensitive runnable execTool fuel afuel msgs,
   runLoop_suspended_shape runnable execTool fuel afuel msgs,
   rfl⟩

/-- Closed witness for C1: a planner that immediately requests
`create_order` drives the run into suspension before the handler executes;
the pending call is that `create_order` request and routing selected the
sensitive branch. -/
theorem c1_sensitive_gated_by_approval_witness :
    ∃ c rest,
      ([Message.ai (.text "") [⟨"create_order", "call_7", []⟩]] :
          List Message).getLast? =
        some (.ai c ((⟨"create_order", "call_7", []⟩ : ToolCall) :: rest)) ∧
      (⟨"create_order", "call_7", []⟩ : ToolCall).name ∈ sensitive_tool_names ∧
      route_tools [Message.ai (.text "") [⟨"create_order", "call_7", []⟩]] =
        .sensitiveTools :=
  (c1_sensitive_gated_by_approval
      (fun _ => ⟨.text "", [⟨"create_order", "call_7", []⟩]⟩)
      (fun _ => "") 1 1 []).2.1
    [Message.ai (.text "") [⟨"create_order", "call_7", []⟩]]
    ⟨"create_order", "call_7", []⟩ (by decide)

/-- C10: when no product row has `Quantity > 0`, the MIN/MAX/AVG price
statistics of `search_products` are SQL NULL and `float(None)` raises a
`TypeError` while the price-range metadata is built — the function never
returns a success result with an empty product list for an empty store;
a success result is reachable only when at least one in-stock product
exists, and every product it returns has stock strictly greater than
zero. -/
theorem c10_search_requires_stock (query category : Option String)
    (minPrice maxPrice : Option ℚ) (db : Db) :
    ((∀ p ∈ db.products, p.quantity ≤ 0) →
      search_products query category minPrice maxPrice db =
        .raised
          "float() argument must be a string or a real number, not NoneType") ∧
    (∀ res,
      search_products query category minPrice maxPrice db = .returns res →
      (∃ p ∈ db.products, 0 < p.quantity) ∧
      ∀ sp ∈ res.products, 0 < sp.stock) := by
  constructor
  · intro h
    have hnil : db.products.filter (fun p => decide (0 < p.quantity)) = [] := by
      rw [List.filter_eq_nil_iff]
      intro a ha
      simpa using h a ha
    unfold search_products
    rw [hnil]
    rfl
  · intro res hres
    cases hstock : db.products.filter (fun p => decide (0 < p.quantity)) with
    | nil =>
      exfalso
      unfold search_products at hres
      rw [hstock] at hres
      cases hres
    | cons p ps =>
      constructor
      · have hp : p ∈ db.products.filter (fun p => decide (0 < p.quantity)) := by
          rw [hstock]; exact List.mem_cons_self _ _
        rcases List.mem_filter.mp hp with ⟨hmem, hq⟩
        exact ⟨p, hmem, by simpa using hq⟩
      · intro sp hsp
        unfold search_products at hres
        rw [hstock] at hres
        simp only [List.map_cons, sqlMin, sqlMax, sqlAvg,
          PyCall.returns.injEq] at hres
        subst hres
        simp only [] at hsp
        rcases List.mem_map.mp hsp with ⟨q, hq, hqsp⟩
        have hq3 : (decide (0 < q.quantity)) = true := by
          have hmem : q ∈ db.products.filter (fun p => decide (0 < p.quantity)) := by
            rw [hstock]
            exact List.mem_of_mem_filter hq
          exact (List.mem_filter.mp hmem).2
        rw [← hqsp]
        simpa using hq3

/-- Closed witness for C10: a store whose only product has stock 0 makes
`search_products` raise, while a store with one in-stock product yields a
success whose every returned product has positive stock. -/
theorem c10_search_requires_stock_witness :
    search_products none none none none
        ⟨[⟨1, "apple", "f", "d", 2, 0⟩], [], [], 9⟩ =
      .raised
        "float() argument must be a string or a real number, not NoneType" ∧
    (∃ p ∈ (⟨[⟨2, "pear", "f", "d", 3, 4⟩], [], [], 9⟩ : Db).products,
        0 < p.quantity) ∧
    (∀ sp ∈ ([⟨"2", "pear", "f", "d", 3, 4⟩] : List SearchedProduct),
        0 < sp.stock) := by
  have h2 : search_products none none none none
      ⟨[⟨2, "pear", "f", "d", 3, 4⟩], [], [], 9⟩ =
      .returns ⟨[⟨"2", "pear", "f", "d", 3, 4⟩], 1, [⟨"f", 1⟩],
        ⟨3, 3, pyRound2 (List.sum [(3 : ℚ)] / (List.length [(3 : ℚ)] : ℚ))⟩⟩ :=
    rfl
  have hc := (c10_search_requires_stock none none none none
    ⟨[⟨2, "pear", "f", "d", 3, 4⟩], [], [], 9⟩).2 _ h2
  refine ⟨?_, hc.1, hc.2⟩
  refine (c10_search_requires_stock none none none none
    ⟨[⟨1, "apple", "f", "d", 2, 0⟩], [], [], 9⟩).1 ?_
  intro p hp
  have hp' : p = ⟨1, "apple", "f", "d", 2, 0⟩ := by simpa using hp
  subst hp'
  decide
